import Mathlib

/-!
Shallow embedding of `views.py` (the single source file of the repository).

The module's only import is `from django.http import HttpResponseRedirect`
(line 1 of `views.py`), so within the module the global names
`ImproperlyConfigured`, `RequestContext` and `HttpResponse` are unbound:
evaluating a statement that mentions one of them raises a Python
`NameError` before the intended object is ever constructed.  The embedding
is faithful to that: such statements are embedded as throwing
`PyExc.nameError "<name>"`.

Python values flowing through the code are modelled by `PyVal`; framework
objects that the code never inspects (template loaders, templates) are
`PyVal.vObj` with a tag, and the behaviour of the framework call
`loader.select_template(names)` is a parameter (`Framework`).

View instances are mutable objects whose attributes the methods may read
and write, so methods are embedded in a state-and-exception monad `PyM`:
a method takes the instance state (`ViewState`, the four configuration
attributes set by `__init__`) and returns a `Except PyExc` result together
with the (possibly updated) state.  The state is returned even when an
exception propagates, matching Python, where the instance survives an
exception raised inside a method.
-/

/-- A Python value as used by `views.py`: `None`, strings, ints, lists, the
`HttpResponseRedirect` objects built by `HttpRedirect.__init__`, and opaque
framework objects (template loaders, templates) identified by a tag. -/
inductive PyVal where
  | vNone
  | vStr (s : String)
  | vInt (n : Int)
  | vList (xs : List PyVal)
  | vRedirect (path : String)
  | vObj (tag : String)

/-- Python truthiness, as used by `if not names:` (views.py line 47) and
`self.template_loader or django.template.loader` (line 75). -/
def PyVal.truthy : PyVal → Bool
  | .vNone => false
  | .vStr s => s ≠ ""
  | .vInt n => n ≠ 0
  | .vList xs => ¬ xs.isEmpty
  | .vRedirect _ => true
  | .vObj _ => true

/-- Is the value a Python list? -/
def PyVal.isList : PyVal → Bool
  | .vList _ => true
  | _ => false

/-- Is the value a Python string (a `basestring` instance, views.py line 58)? -/
def PyVal.isStr : PyVal → Bool
  | .vStr _ => true
  | _ => false

/-- An exception raised while running the embedded code.  `httpRedirect`
carries the exception object's `redirect` attribute (views.py line 122);
`nameError n` is Python's `NameError` for the unbound global `n`. -/
inductive PyExc where
  | nameError (n : String)
  | typeError (msg : String)
  | httpRedirect (redirect : PyVal)
  | frameworkError (msg : String)

/-- The value `django.http.HttpResponseRedirect(path)` — the one name
`views.py` imports.  The code never inspects the object, it only stores
and returns it, so the path is all we keep. -/
def HttpResponseRedirect (path : String) : PyVal := .vRedirect path

/-- Raising `HttpRedirect(path)` (views.py lines 115-122): `__init__`
stores `HttpResponseRedirect(path)` in the exception's `redirect`
attribute, and the exception is thrown. -/
def HttpRedirect_raise (path : String) : PyExc :=
  .httpRedirect (HttpResponseRedirect path)

/-- The four configuration attributes `GenericView.__init__` sets on the
instance (views.py lines 25-31). -/
structure ViewState where
  context_processors : PyVal
  mimetype : PyVal
  template_loader : PyVal
  template_name : PyVal

/-- The monad for view methods: state (the instance attributes) plus
exceptions.  The state is returned even on an exception. -/
def PyM (α : Type) : Type := ViewState → Except PyExc α × ViewState

/-- Return a value, leaving the instance untouched. -/
def PyM.pure' {α : Type} (a : α) : PyM α := fun s => (.ok a, s)

/-- Sequencing: run `m`; on success feed the result to `f`, on an
exception propagate it (with the state `m` left behind). -/
def PyM.bind' {α β : Type} (m : PyM α) (f : α → PyM β) : PyM β := fun s =>
  match m s with
  | (.ok a, s') => f a s'
  | (.error e, s') => (.error e, s')

instance : Monad PyM where
  pure := PyM.pure'
  bind := PyM.bind'

/-- Read the instance (`self`). -/
def PyM.getSelf : PyM ViewState := fun s => (.ok s, s)

/-- Raise an exception. -/
def PyM.throw {α : Type} (e : PyExc) : PyM α := fun s => (.error e, s)

/-- A `try ... except HttpRedirect, e: return e.redirect` block
(views.py lines 171-174): exceptions of type `HttpRedirect` are mapped to
a normal return of `e.redirect`; any other exception propagates. -/
def PyM.catchRedirect (m : PyM PyVal) : PyM PyVal := fun s =>
  match m s with
  | (.error (.httpRedirect r), s') => (.ok r, s')
  | other => other

/-- Lift a pure `Except` computation (a framework call that does not touch
the view instance) into `PyM`. -/
def PyM.liftE {α : Type} (e : Except PyExc α) : PyM α := fun s => (e, s)

/-- Requests are opaque to this code: it only passes them through. -/
abbrev Request := PyVal

/-- The optional `object` argument of the view calls. -/
abbrev Obj := PyVal

/-- Behaviour of the framework pieces `views.py` delegates to: the module
object `django.template.loader` (line 74) and the template-selection call
`loader.select_template(names)` (line 67). -/
structure Framework where
  default_loader : PyVal
  select_template : PyVal → PyVal → Except PyExc PyVal

/-- Pure core of `GenericView.get_template_names` (views.py lines 51-61):
`[]` when `template_name` is `None`, `[template_name]` when it is a
string, and `template_name` itself otherwise. -/
def get_template_names_pure (template_name : PyVal) : PyVal :=
  match template_name with
  | .vNone => .vList []
  | .vStr n => .vList [.vStr n]
  | v => v

/-- Method `GenericView.get_template_names(self, request, obj)`
(views.py lines 51-61): reads `self.template_name`. -/
def get_template_names_m (_request : Request) (_obj : Obj) : PyM PyVal := do
  let self ← PyM.getSelf
  pure (get_template_names_pure self.template_name)

/-- Method `GenericView.get_template_loader(self, request, obj)`
(views.py lines 69-75): `self.template_loader or django.template.loader`
— the attribute when truthy, else the framework's default loader module. -/
def get_template_loader_m (fw : Framework) (_request : Request) (_obj : Obj) :
    PyM PyVal := do
  let self ← PyM.getSelf
  pure (if self.template_loader.truthy then self.template_loader
        else fw.default_loader)

/-- Method `GenericView.load_template(self, request, obj, names=[])`
(views.py lines 63-67): `self.get_template_loader(request, obj).select_template(names)`. -/
def load_template_m (fw : Framework) (request : Request) (obj : Obj)
    (names : PyVal) : PyM PyVal := do
  let loader ← get_template_loader_m fw request obj
  PyM.liftE (fw.select_template loader names)

/-- Method `GenericView.get_template(self, request, obj)` (views.py lines
42-49).  On the `if not names:` branch the source is
`raise ImproperlyConfigured("'%s' must provide template_name." % ...)`;
since `views.py` never imports or defines `ImproperlyConfigured`, Python
fails to resolve that name and the line raises `NameError` instead, which
is what the embedding throws. -/
def get_template_m (fw : Framework) (request : Request) (obj : Obj) :
    PyM PyVal := do
  let names ← get_template_names_m request obj
  if names.truthy then
    load_template_m fw request obj names
  else
    PyM.throw (.nameError "ImproperlyConfigured")

/-- Method `GenericView.get_context_processors(self, request, obj)`
(views.py lines 86-90): returns `self.context_processors`. -/
def get_context_processors_m (_request : Request) (_obj : Obj) : PyM PyVal := do
  let self ← PyM.getSelf
  pure self.context_processors

/-- Method `GenericView.get_context(self, request, obj, context=None)`
(views.py lines 77-84).  After computing the processors the source
evaluates `RequestContext(request, context, processors)`; `RequestContext`
is never imported into `views.py`, so the name lookup raises `NameError`
before any context object is built. -/
def get_context_m (request : Request) (obj : Obj) : PyM PyVal := do
  let _processors ← get_context_processors_m request obj
  PyM.throw (.nameError "RequestContext")

/-- Method `GenericView.get_mimetype(self, request, obj)` (views.py lines
92-96): returns `self.mimetype`. -/
def get_mimetype_m (_request : Request) (_obj : Obj) : PyM PyVal := do
  let self ← PyM.getSelf
  pure self.mimetype

/-- Method `GenericView.get_response(self, request, obj, template,
context, **httpresponse_kwargs)` (views.py lines 98-102).  The source is
`HttpResponse(template.render(context), **httpresponse_kwargs)`; Python
resolves the callee `HttpResponse` before evaluating its arguments, and
`HttpResponse` is never imported into `views.py`, so the line raises
`NameError` without rendering anything. -/
def get_response_m (_request : Request) (_obj : Obj) (_template : PyVal)
    (_context : PyVal) (_mimetype : PyVal) : PyM PyVal :=
  PyM.throw (.nameError "HttpResponse")

/-- The methods `GenericView.__call__` dispatches on `self`
(views.py lines 36-39); a subclass may override any of them. -/
structure Dispatch where
  get_template : Request → Obj → PyM PyVal
  get_context : Request → Obj → PyM PyVal
  get_mimetype : Request → Obj → PyM PyVal
  get_response : Request → Obj → PyVal → PyVal → PyVal → PyM PyVal

/-- The unoverridden methods, exactly as `GenericView` defines them. -/
def defaultDispatch (fw : Framework) : Dispatch where
  get_template := get_template_m fw
  get_context := get_context_m
  get_mimetype := get_mimetype_m
  get_response := get_response_m

/-- Method `GenericView.__call__(self, request, object=None)` (views.py
lines 35-40): template, then context, then mimetype, then the response
built from them. -/
def GenericView_call (d : Dispatch) (request : Request) (object : Obj) :
    PyM PyVal := do
  let template ← d.get_template request object
  let context ← d.get_context request object
  let mimetype ← d.get_mimetype request object
  let response ← d.get_response request object template context mimetype
  pure response

/-- Method `ObjectView.__call__(self, request, object=None)` (views.py
lines 170-174): the `GenericView` call wrapped in
`try ... except HttpRedirect, e: return e.redirect`. -/
def ObjectView_call (d : Dispatch) (request : Request) (object : Obj) :
    PyM PyVal :=
  PyM.catchRedirect (GenericView_call d request object)

/-- Keyword arguments of a call, as an association list (a Python dict has
each key at most once; iteration order is the list order). -/
abbrev Kwargs := List (String × PyVal)

/-- Dictionary lookup `kw[k]` as an `Option`. -/
def lookupKw (k : String) (kw : Kwargs) : Option PyVal :=
  (kw.find? (fun p => p.1 == k)).map (fun p => p.2)

/-- Effect of `initkwargs.pop(k, default)` on the dict: the entry for `k`,
if any, is removed. -/
def popKw (k : String) (kw : Kwargs) : Kwargs :=
  kw.filter (fun p => ¬ p.1 == k)

/-- The `defaults` dict passed to `_load_config_values` by
`GenericView.__init__` (views.py lines 26-31). -/
def configDefaults : List (String × PyVal) :=
  [("context_processors", .vNone),
   ("mimetype", .vStr "text/html"),
   ("template_loader", .vNone),
   ("template_name", .vNone)]

/-- The four recognised configuration-attribute names. -/
def configKeys : List String := configDefaults.map (fun p => p.1)

/-- Python `setattr(self, k, value)` restricted to the four attributes the
code ever sets (views.py line 112). -/
def setattrView (s : ViewState) (k : String) (v : PyVal) : ViewState :=
  if k == "context_processors" then { s with context_processors := v }
  else if k == "mimetype" then { s with mimetype := v }
  else if k == "template_loader" then { s with template_loader := v }
  else if k == "template_name" then { s with template_name := v }
  else s

/-- Method `GenericView._load_config_values(self, initkwargs, **defaults)`
(views.py lines 104-112): for each key of `defaults`, take the value from
`initkwargs` (popping it), else the class attribute of that name, else the
default, and set it on the instance.  `classAttrs` is `getattr(self.__class__, k, ...)`:
the class attribute for `k`, when the class has one.  A fresh instance has
no attributes; all four are assigned here, so the fold starts from a dummy
state whose every field is overwritten.  Returns the instance state and
what remains of `initkwargs`. -/
def load_config_values (classAttrs : String → Option PyVal)
    (initkwargs : Kwargs) : ViewState × Kwargs :=
  configDefaults.foldl
    (fun (acc : ViewState × Kwargs) kd =>
      let k := kd.1
      let dflt := match classAttrs k with
        | some v => v
        | none => kd.2
      let value := match lookupKw k acc.2 with
        | some v => v
        | none => dflt
      (setattrView acc.1 k value, popKw k acc.2))
    (⟨.vNone, .vNone, .vNone, .vNone⟩, initkwargs)

/-- Method `GenericView.__init__(self, **kwargs)` (views.py lines 25-33):
load the four config values, then `raise TypeError(...)` naming the first
remaining keyword argument if any are left. -/
def GenericView_init (classAttrs : String → Option PyVal)
    (kwargs : Kwargs) : Except PyExc ViewState :=
  match load_config_values classAttrs kwargs with
  | (st, []) => .ok st
  | (_, (k, _) :: _) =>
      .error (.typeError
        ("__init__() got an unexpected keyword argument '" ++ k ++ "'"))

/-- Modelled from the spec refinement side, for comparison with
`load_config_values`: the claimed precedence for one configuration
attribute — the keyword argument if given, else the class attribute of
that name if present, else the default. -/
def configValueSpec (classAttrs : String → Option PyVal) (kw : Kwargs)
    (k : String) (dflt : PyVal) : PyVal :=
  match lookupKw k kw with
  | some v => v
  | none =>
      match classAttrs k with
      | some v => v
      | none => dflt

/-- The body of `ObjectViewMeta.__new__` (views.py lines 128-135) acting
on the class's `__call__` attribute: when the class has a `decorators`
attribute, a reversed copy of the list is traversed and each decorator is
applied in turn to `cls.__call__`; without the attribute the `__call__` is
left alone.  `α` is the type of the callable being decorated. -/
def ObjectViewMeta_new {α : Type} (decorators : Option (List (α → α)))
    (call : α) : α :=
  match decorators with
  | none => call
  | some ds => ds.reverse.foldl (fun c d => d c) call

/-- A class, as `instantiator` consumes one: constructing `cls(**kwargs)`
builds instance state (or raises, e.g. `TypeError` from `__init__`), and
the instance is callable.  The first argument of `call` is the identity of
the instance it is invoked on (which allocation produced it), so that
distinctness of instances across invocations is observable. -/
structure PyClass where
  construct : Kwargs → Except PyExc ViewState
  call : Nat → ViewState → Request → Obj → Except PyExc PyVal

/-- An allocation counter: constructing an object consumes the next
identity. -/
abbrev Alloc (α : Type) := Nat → α × Nat

/-- Function `instantiator(cls, **kwargs)` (views.py lines 177-189): the
returned `new_instance(request, object=None)` runs
`instance = cls(**kwargs)` — allocating a brand-new instance — and returns
`instance(request, object)`.  If construction raises, the exception
propagates (the allocation was still consumed). -/
def instantiator (cls : PyClass) (kwargs : Kwargs) :
    Request → Obj → Alloc (Except PyExc PyVal) :=
  fun request object n =>
    match cls.construct kwargs with
    | .error e => (.error e, n + 1)
    | .ok st => (cls.call n st request object, n + 1)

/-- A concrete framework for instantiating the theorems: the default
loader module object, and a `select_template` that always finds a
template. -/
def fw0 : Framework where
  default_loader := .vObj "django.template.loader"
  select_template := fun _ _ => .ok (.vObj "template")

/-- A freshly constructed `GenericView()` with no class attributes and no
keyword arguments: all defaults (views.py lines 26-31). -/
def s0 : ViewState :=
  ⟨.vNone, .vStr "text/html", .vNone, .vNone⟩

/-- A view configured with a concrete `template_name`. -/
def s1 : ViewState :=
  ⟨.vNone, .vStr "text/html", .vNone, .vStr "detail.html"⟩

/-- A dispatch modelling an `ObjectView` subclass whose `get_template`
raises `HttpRedirect("/auth/permission_denied/")`, the use the class
docstring describes (views.py lines 147-151). -/
def redirectingDispatch : Dispatch where
  get_template := fun _ _ => PyM.throw (HttpRedirect_raise "/auth/permission_denied/")
  get_context := get_context_m
  get_mimetype := get_mimetype_m
  get_response := get_response_m

/-- A concrete class for instantiating the `instantiator` theorem: its
instances report their own allocation identity when called. -/
def probeClass : PyClass where
  construct := fun _ => .ok s0
  call := fun id _ _ _ => .ok (.vInt id)

/-- Concrete class attributes for instantiating the `__init__` theorems:
the class defines `template_name = "cls.html"`. -/
def caW : String → Option PyVal :=
  fun k => if k == "template_name" then some (.vStr "cls.html") else none

/-- Concrete keyword arguments overriding `mimetype`. -/
def kwW : Kwargs := [("mimetype", .vStr "text/plain")]

/-- The state `GenericView.__init__` produces from `caW` and `kwW`. -/
def stW : ViewState :=
  ⟨.vNone, .vStr "text/plain", .vNone, .vStr "cls.html"⟩

/-!
Theorems.  Each claim of the specification gets one theorem below;
auxiliary run lemmas for the monad come first.
-/

theorem PyM.bind_run {α β : Type} (m : PyM α) (f : α → PyM β) (s : ViewState) :
    (m >>= f) s = match m s with
      | (.ok a, s') => f a s'
      | (.error e, s') => (.error e, s') := rfl

theorem PyM.pure_run {α : Type} (a : α) (s : ViewState) :
    (pure a : PyM α) s = (.ok a, s) := rfl

/-- C4: a class built by `ObjectViewMeta` with a `decorators` attribute
`[d1, ..., dn]` ends up with `__call__ = d1 (d2 (... (dn call)))` — the
reversed traversal makes `dn` the first applied and `d1` the outermost —
and a class without the attribute keeps its `__call__` unchanged. -/
theorem objectViewMeta_decorator_order {α : Type} (ds : List (α → α))
    (d : α → α) (call : α) :
    ObjectViewMeta_new (some ds) call = ds.foldr (fun g c => g c) call ∧
    ObjectViewMeta_new (some (d :: ds)) call =
      d (ObjectViewMeta_new (some ds) call) ∧
    ObjectViewMeta_new (none : Option (List (α → α))) call = call := by
  have hfold : ∀ (l : List (α → α)) (c : α),
      l.reverse.foldl (fun c g => g c) c = l.foldr (fun g c => g c) c := by
    intro l
    induction l with
    | nil => intro c; rfl
    | cons g l ih =>
        intro c
        simp [List.foldl_append, ih]
  refine ⟨hfold ds call, ?_, rfl⟩
  show (d :: ds).reverse.foldl (fun c g => g c) call = _
  rw [hfold (d :: ds) call]
  simp [ObjectViewMeta_new, hfold ds call]

/-- C3: the function returned by `instantiator(cls, **kwargs)` constructs
a brand-new instance of `cls` with those kwargs on every invocation —
the allocation counter it is run at becomes the instance's identity and
is consumed — and returns the result of calling that fresh instance; two
successive invocations use the distinct identities `n` and `n + 1`, so no
instance is reused. -/
theorem instantiator_fresh_instance (cls : PyClass) (kwargs : Kwargs)
    (st : ViewState) (req1 obj1 req2 obj2 : PyVal) (n : Nat)
    (h : cls.construct kwargs = .ok st) :
    instantiator cls kwargs req1 obj1 n = (cls.call n st req1 obj1, n + 1) ∧
    instantiator cls kwargs req2 obj2 (n + 1) =
      (cls.call (n + 1) st req2 obj2, n + 2) ∧
    n ≠ n + 1 := by
  refine ⟨?_, ?_, by omega⟩ <;> simp [instantiator, h]

theorem instantiator_fresh_instance_witness :
    instantiator probeClass [] .vNone .vNone 0 = (.ok (.vInt 0), 1) ∧
    instantiator probeClass [] .vNone .vNone 1 = (.ok (.vInt 1), 2) := by
  have h := instantiator_fresh_instance probeClass [] s0 .vNone .vNone
    .vNone .vNone 0 rfl
  exact ⟨h.1, h.2.1⟩

/-- C1: whenever a method invoked during an `ObjectView` call raises
`HttpRedirect(path)` — that is, the wrapped `GenericView.__call__` body
ends in that exception — `ObjectView.__call__` catches it and returns the
`HttpResponseRedirect` built from `path` and stored in the exception's
`redirect` attribute, instead of propagating the exception. -/
theorem objectView_call_catches_httpRedirect (d : Dispatch)
    (request : Request) (object : Obj) (s s' : ViewState) (path : String)
    (h : GenericView_call d request object s =
      (.error (HttpRedirect_raise path), s')) :
    ObjectView_call d request object s = (.ok (HttpResponseRedirect path), s') := by
  simp [ObjectView_call, PyM.catchRedirect, h, HttpRedirect_raise]

theorem objectView_call_catches_httpRedirect_witness :
    ObjectView_call redirectingDispatch .vNone .vNone s0 =
      (.ok (HttpResponseRedirect "/auth/permission_denied/"), s0) :=
  objectView_call_catches_httpRedirect redirectingDispatch .vNone .vNone
    s0 s0 "/auth/permission_denied/" rfl

/-- C10, counterexample: with `template_name = 7` (an int is neither
`None` nor a string), `get_template_names` returns `7` itself, which is
not a list — so it does not always return a list-shaped value. -/
theorem get_template_names_int_not_list :
    get_template_names_pure (.vInt 7) = .vInt 7 ∧
    (get_template_names_pure (.vInt 7)).isList = false :=
  ⟨rfl, rfl⟩

/-- C10, amended: `get_template_names` returns `[]` when `template_name`
is `None`, `[template_name]` when it is a string, and the `template_name`
value itself unchanged in every other case; the result is list-shaped
exactly when `template_name` is `None`, a string, or itself a list. -/
theorem get_template_names_shape (v : PyVal) (s : String) :
    get_template_names_pure .vNone = .vList [] ∧
    get_template_names_pure (.vStr s) = .vList [.vStr s] ∧
    (v ≠ .vNone → v.isStr = false → get_template_names_pure v = v) ∧
    ((get_template_names_pure v).isList = true ↔
      (v = .vNone ∨ v.isStr = true ∨ v.isList = true)) := by
  refine ⟨rfl, rfl, ?_, ?_⟩ <;>
    cases v <;> simp [get_template_names_pure, PyVal.isStr, PyVal.isList]

theorem get_template_names_shape_witness :
    get_template_names_pure (.vObj "o") = .vObj "o" ∧
    (get_template_names_pure (.vList [.vStr "a.html"])).isList = true := by
  refine ⟨(get_template_names_shape (.vObj "o") "x").2.2.1 (by simp) rfl, ?_⟩
  exact (get_template_names_shape (.vList [.vStr "a.html"]) "x").2.2.2.mpr
    (Or.inr (Or.inr rfl))

theorem catchRedirect_snd (m : PyM PyVal) (s : ViewState) :
    (PyM.catchRedirect m s).2 = (m s).2 := by
  unfold PyM.catchRedirect
  rcases hm : m s with ⟨e | a, s'⟩
  · cases e <;> simp
  · simp

/-- C2, evaluated at the failing input: with `template_name = None`,
`get_template_names` returns the empty list and the call takes the
misconfiguration branch of `get_template` — but because `views.py` never
imports `ImproperlyConfigured`, what the call actually raises is
`NameError` for that unbound name, not the `ImproperlyConfigured` error
the claim (and the raise statement itself) intend. -/
theorem missing_template_name_raises_nameError (fw : Framework)
    (request : Request) (object : Obj) (s : ViewState)
    (h : s.template_name = .vNone) :
    get_template_names_m request object s = (.ok (.vList []), s) ∧
    GenericView_call (defaultDispatch fw) request object s =
      (.error (.nameError "ImproperlyConfigured"), s) ∧
    ObjectView_call (defaultDispatch fw) request object s =
      (.error (.nameError "ImproperlyConfigured"), s) := by
  have h1 : get_template_names_m request object s = (.ok (.vList []), s) := by
    simp [get_template_names_m, PyM.bind_run, PyM.getSelf, PyM.pure_run, h,
      get_template_names_pure]
  have h2 : GenericView_call (defaultDispatch fw) request object s =
      (.error (.nameError "ImproperlyConfigured"), s) := by
    simp [GenericView_call, defaultDispatch, get_template_m,
      get_template_names_m, PyM.bind_run, PyM.getSelf, PyM.pure_run, h,
      get_template_names_pure, PyVal.truthy, PyM.throw]
  refine ⟨h1, h2, ?_⟩
  simp [ObjectView_call, PyM.catchRedirect, h2]

theorem missing_template_name_raises_nameError_witness :
    GenericView_call (defaultDispatch fw0) .vNone .vNone s0 =
      (.error (.nameError "ImproperlyConfigured"), s0) :=
  (missing_template_name_raises_nameError fw0 .vNone .vNone s0 rfl).2.1

/-- C5, evaluated at the failing input: with a string `template_name` and
a framework whose `select_template` succeeds, `GenericView.__call__`
resolves the template and then dies inside `get_context` with `NameError`
for the unbound global `RequestContext` — so the call can never reach
`get_response`, let alone return an HTTP response wrapping the rendered
template (whose `HttpResponse` constructor is equally unbound). -/
theorem call_fails_at_requestContext (fw : Framework)
    (request : Request) (object : Obj) (s : ViewState) (name : String)
    (tmpl : PyVal)
    (hname : s.template_name = .vStr name)
    (hsel : fw.select_template
        (if s.template_loader.truthy then s.template_loader
         else fw.default_loader) (.vList [.vStr name]) = .ok tmpl) :
    GenericView_call (defaultDispatch fw) request object s =
      (.error (.nameError "RequestContext"), s) := by
  have hnames : (PyVal.vList [PyVal.vStr name]).truthy = true := rfl
  simp [GenericView_call, defaultDispatch, get_template_m,
    get_template_names_m, load_template_m, get_template_loader_m,
    get_context_m, get_context_processors_m, PyM.bind_run, PyM.getSelf,
    PyM.liftE, PyM.throw, PyM.pure_run, hname, get_template_names_pure,
    hnames, hsel]

theorem call_fails_at_requestContext_witness :
    GenericView_call (defaultDispatch fw0) .vNone .vNone s1 =
      (.error (.nameError "RequestContext"), s1) :=
  call_fails_at_requestContext fw0 .vNone .vNone s1 "detail.html"
    (.vObj "template") rfl rfl

theorem genericCall_default_snd (fw : Framework) (request : Request)
    (object : Obj) (s : ViewState) :
    (GenericView_call (defaultDispatch fw) request object s).2 = s := by
  by_cases ht : (get_template_names_pure s.template_name).truthy
  · rcases hsel : fw.select_template
        (if s.template_loader.truthy then s.template_loader
         else fw.default_loader) (get_template_names_pure s.template_name)
      with e | t <;>
      simp [GenericView_call, defaultDispatch, get_template_m,
        get_template_names_m, load_template_m, get_template_loader_m,
        get_context_m, get_context_processors_m, PyM.bind_run, PyM.getSelf,
        PyM.liftE, PyM.throw, PyM.pure_run, ht, hsel]
  · simp [GenericView_call, defaultDispatch, get_template_m,
      get_template_names_m, PyM.bind_run, PyM.getSelf, PyM.pure_run,
      PyM.throw, ht]

/-- C8: calling the view with the code's own methods — through
`GenericView.__call__` or `ObjectView.__call__` — returns the instance
state exactly as it was: the four configuration attributes
`context_processors`, `mimetype`, `template_loader` and `template_name`
are read, never written, after construction. -/
theorem call_leaves_config_unchanged (fw : Framework) (request : Request)
    (object : Obj) (s : ViewState) :
    (GenericView_call (defaultDispatch fw) request object s).2 = s ∧
    (ObjectView_call (defaultDispatch fw) request object s).2 = s := by
  refine ⟨genericCall_default_snd fw request object s, ?_⟩
  rw [ObjectView_call, catchRedirect_snd]
  exact genericCall_default_snd fw request object s

theorem lookupKw_cons (k : String) (p : String × PyVal) (rest : Kwargs) :
    lookupKw k (p :: rest) =
      if p.1 = k then some p.2 else lookupKw k rest := by
  by_cases hk : p.1 = k <;> simp [lookupKw, List.find?_cons, hk]

theorem popKw_cons (k' : String) (p : String × PyVal) (rest : Kwargs) :
    popKw k' (p :: rest) =
      if p.1 = k' then popKw k' rest else p :: popKw k' rest := by
  by_cases hp : p.1 = k' <;> simp [popKw, List.filter_cons, hp]

theorem lookupKw_popKw_ne (k k' : String) (h : ¬ k = k') (kw : Kwargs) :
    lookupKw k (popKw k' kw) = lookupKw k kw := by
  induction kw with
  | nil => rfl
  | cons p rest ih =>
      by_cases hp : p.1 = k'
      · have hk : ¬ p.1 = k := fun hh => h (by rw [← hh, hp])
        rw [popKw_cons, if_pos hp, ih, lookupKw_cons, if_neg hk]
      · rw [popKw_cons, if_neg hp, lookupKw_cons, lookupKw_cons]
        by_cases hk : p.1 = k
        · rw [if_pos hk, if_pos hk]
        · rw [if_neg hk, if_neg hk, ih]

theorem lcv_rest (ca : String → Option PyVal) (kw : Kwargs) :
    (load_config_values ca kw).2 =
      kw.filter (fun p => decide (p.1 ∉ configKeys)) := by
  have h : (load_config_values ca kw).2 =
      popKw "template_name" (popKw "template_loader" (popKw "mimetype"
        (popKw "context_processors" kw))) := rfl
  rw [h]
  simp only [popKw, List.filter_filter]
  refine List.filter_congr ?_
  intro p _
  by_cases h1 : p.1 = "context_processors" <;>
    by_cases h2 : p.1 = "mimetype" <;>
      by_cases h3 : p.1 = "template_loader" <;>
        by_cases h4 : p.1 = "template_name" <;>
          simp_all [configKeys, configDefaults]

theorem lcv_fields (ca : String → Option PyVal) (kw : Kwargs) :
    (load_config_values ca kw).1.context_processors =
      configValueSpec ca kw "context_processors" .vNone ∧
    (load_config_values ca kw).1.mimetype =
      configValueSpec ca kw "mimetype" (.vStr "text/html") ∧
    (load_config_values ca kw).1.template_loader =
      configValueSpec ca kw "template_loader" .vNone ∧
    (load_config_values ca kw).1.template_name =
      configValueSpec ca kw "template_name" .vNone := by
  have e2 := lookupKw_popKw_ne "mimetype" "context_processors" (by decide) kw
  have e3 := lookupKw_popKw_ne "template_loader" "mimetype" (by decide)
    (popKw "context_processors" kw)
  have e3' := lookupKw_popKw_ne "template_loader" "context_processors"
    (by decide) kw
  have e4 := lookupKw_popKw_ne "template_name" "template_loader" (by decide)
    (popKw "mimetype" (popKw "context_processors" kw))
  have e4' := lookupKw_popKw_ne "template_name" "mimetype" (by decide)
    (popKw "context_processors" kw)
  have e4'' := lookupKw_popKw_ne "template_name" "context_processors"
    (by decide) kw
  refine ⟨rfl, ?_, ?_, ?_⟩ <;>
    simp only [load_config_values, configDefaults, List.foldl_cons,
      List.foldl_nil, setattrView, configValueSpec] <;>
    simp only [e2, e3, e3', e4, e4', e4''] <;>
    simp

theorem init_ok_iff (ca : String → Option PyVal) (kw : Kwargs) :
    (∃ st, GenericView_init ca kw = .ok st) ↔ ∀ p ∈ kw, p.1 ∈ configKeys := by
  have h2 := lcv_rest ca kw
  constructor
  · rintro ⟨st, hst⟩ p hp
    by_contra hnot
    have hmem : p ∈ (load_config_values ca kw).2 := by
      rw [h2]
      exact List.mem_filter.mpr ⟨hp, by simpa using hnot⟩
    unfold GenericView_init at hst
    rcases hlcv : load_config_values ca kw with ⟨st', rest⟩
    rw [hlcv] at hst hmem
    cases rest with
    | nil => simp at hmem
    | cons q t => simp at hst
  · intro hall
    have hnil : (load_config_values ca kw).2 = [] := by
      rw [h2]
      refine List.filter_eq_nil_iff.mpr ?_
      intro a ha
      simpa using hall a ha
    unfold GenericView_init
    rcases hlcv : load_config_values ca kw with ⟨st', rest⟩
    rw [hlcv] at hnil
    subst hnil
    exact ⟨st', rfl⟩

theorem init_error_char (ca : String → Option PyVal) (kw : Kwargs)
    (e : PyExc) (he : GenericView_init ca kw = .error e) :
    ∃ k, (∃ v, (k, v) ∈ kw) ∧ k ∉ configKeys ∧
      e = .typeError
        ("__init__() got an unexpected keyword argument '" ++ k ++ "'") := by
  unfold GenericView_init at he
  rcases hlcv : load_config_values ca kw with ⟨st, rest⟩
  rw [hlcv] at he
  cases rest with
  | nil => simp at he
  | cons q t =>
      have hq : q ∈ (load_config_values ca kw).2 := by
        rw [hlcv]
        exact List.mem_cons_self q t
      rw [lcv_rest ca kw] at hq
      have hmf := List.mem_filter.mp hq
      refine ⟨q.1, ⟨q.2, hmf.1⟩, by simpa using hmf.2, ?_⟩
      have : Except.error (ε := PyExc) (α := ViewState)
          (.typeError ("__init__() got an unexpected keyword argument '"
            ++ q.1 ++ "'")) = .error e := he
      exact (Except.error.inj this).symm

/-- C6: `__init__` sets exactly the four configuration attributes, each
with precedence keyword argument, else class attribute, else default
(`mimetype` defaulting to `"text/html"`, the rest to `None`), and these
are the values `get_context_processors`, `get_mimetype`,
`get_template_loader` and `get_template_names` read at call time. -/
theorem init_sets_config_with_precedence (ca : String → Option PyVal)
    (kw : Kwargs) (st : ViewState) (fw : Framework)
    (request : Request) (object : Obj)
    (h : GenericView_init ca kw = .ok st) :
    st.context_processors = configValueSpec ca kw "context_processors" .vNone ∧
    st.mimetype = configValueSpec ca kw "mimetype" (.vStr "text/html") ∧
    st.template_loader = configValueSpec ca kw "template_loader" .vNone ∧
    st.template_name = configValueSpec ca kw "template_name" .vNone ∧
    get_context_processors_m request object st =
      (.ok st.context_processors, st) ∧
    get_mimetype_m request object st = (.ok st.mimetype, st) ∧
    get_template_loader_m fw request object st =
      (.ok (if st.template_loader.truthy then st.template_loader
            else fw.default_loader), st) ∧
    get_template_names_m request object st =
      (.ok (get_template_names_pure st.template_name), st) := by
  have hst : st = (load_config_values ca kw).1 := by
    unfold GenericView_init at h
    rcases hlcv : load_config_values ca kw with ⟨st', rest⟩
    rw [hlcv] at h
    cases rest with
    | nil =>
        simp only [] at h
        exact (Except.ok.inj h).symm
    | cons q t => simp at h
  subst hst
  exact ⟨(lcv_fields ca kw).1, (lcv_fields ca kw).2.1,
    (lcv_fields ca kw).2.2.1, (lcv_fields ca kw).2.2.2, rfl, rfl, rfl, rfl⟩

theorem init_sets_config_with_precedence_witness :
    GenericView_init caW kwW = .ok stW ∧
    stW.mimetype = configValueSpec caW kwW "mimetype" (.vStr "text/html") ∧
    stW.template_name = configValueSpec caW kwW "template_name" .vNone := by
  have h : GenericView_init caW kwW = .ok stW := rfl
  have hc := init_sets_config_with_precedence caW kwW stW fw0 .vNone .vNone h
  exact ⟨h, hc.2.1, hc.2.2.2.1⟩

/-- C9: construction succeeds exactly when every keyword argument is one
of the four configuration names, and a failing construction raises
`TypeError` naming an unexpected keyword argument that was passed. -/
theorem init_rejects_unknown_kwargs (ca : String → Option PyVal)
    (kw : Kwargs) :
    ((∃ st, GenericView_init ca kw = .ok st) ↔ ∀ p ∈ kw, p.1 ∈ configKeys) ∧
    (∀ e, GenericView_init ca kw = .error e →
      ∃ k, (∃ v, (k, v) ∈ kw) ∧ k ∉ configKeys ∧
        e = .typeError
          ("__init__() got an unexpected keyword argument '" ++ k ++ "'")) :=
  ⟨init_ok_iff ca kw, fun e he => init_error_char ca kw e he⟩

theorem init_rejects_unknown_kwargs_witness :
    (∃ st, GenericView_init caW kwW = .ok st) ∧
    (∃ k, (∃ v, (k, v) ∈ ([("foo", PyVal.vNone)] : Kwargs)) ∧
      k ∉ configKeys ∧
      PyExc.typeError "__init__() got an unexpected keyword argument 'foo'" =
        .typeError
          ("__init__() got an unexpected keyword argument '" ++ k ++ "'")) := by
  constructor
  · exact (init_rejects_unknown_kwargs caW kwW).1.mpr (by decide)
  · exact (init_rejects_unknown_kwargs (fun _ => none)
      [("foo", .vNone)]).2
      (.typeError "__init__() got an unexpected keyword argument 'foo'") rfl

theorem genericCall_default_not_truthy (fw : Framework) (request : Request)
    (object : Obj) (s : ViewState)
    (ht : (get_template_names_pure s.template_name).truthy = false) :
    GenericView_call (defaultDispatch fw) request object s =
      (.error (.nameError "ImproperlyConfigured"), s) := by
  simp [GenericView_call, defaultDispatch, get_template_m,
    get_template_names_m, PyM.bind_run, PyM.getSelf, PyM.pure_run,
    PyM.throw, ht]

theorem genericCall_default_truthy (fw : Framework) (request : Request)
    (object : Obj) (s : ViewState) (tmpl : PyVal)
    (ht : (get_template_names_pure s.template_name).truthy = true)
    (hsel : fw.select_template
        (if s.template_loader.truthy then s.template_loader
         else fw.default_loader)
        (get_template_names_pure s.template_name) = .ok tmpl) :
    GenericView_call (defaultDispatch fw) request object s =
      (.error (.nameError "RequestContext"), s) := by
  simp [GenericView_call, defaultDispatch, get_template_m,
    get_template_names_m, load_template_m, get_template_loader_m,
    get_context_m, get_context_processors_m, PyM.bind_run, PyM.getSelf,
    PyM.liftE, PyM.throw, PyM.pure_run, ht, hsel]

/-- C7, counterexample: passing `GenericView.__init__` the keyword
argument `foo` makes this code's own logic raise `TypeError` — an error
path that is neither the exception-to-redirect mapping nor the
missing-template configuration error, so those two are not the only
error logic the code has. -/
theorem unexpected_kwarg_error_outside_the_two_paths :
    GenericView_init (fun _ => none) [("foo", .vNone)] =
      .error (.typeError
        "__init__() got an unexpected keyword argument 'foo'") := rfl

/-- C7, amended: besides the redirect mapping and the misconfiguration
branch, the code's own logic also raises `TypeError` from `__init__` on
an unexpected keyword argument, and `NameError` for the unbound globals
(`ImproperlyConfigured`, `RequestContext`, `HttpResponse`): whenever the
framework's `select_template` itself succeeds, every call of the
unmodified view ends in one of those `NameError`s, so no call raises
anything outside this enumerated set — and none completes normally. -/
theorem own_logic_error_paths (ca : String → Option PyVal) (kw : Kwargs)
    (fw : Framework) (request : Request) (object : Obj) (s : ViewState)
    (hfw : ∀ loader names, ∃ v, fw.select_template loader names = .ok v) :
    (∀ e, GenericView_init ca kw = .error e →
      ∃ k, (∃ v, (k, v) ∈ kw) ∧ k ∉ configKeys ∧
        e = .typeError
          ("__init__() got an unexpected keyword argument '" ++ k ++ "'")) ∧
    (∃ e, GenericView_call (defaultDispatch fw) request object s =
        (.error e, s) ∧
      (e = .nameError "ImproperlyConfigured" ∨
       e = .nameError "RequestContext")) := by
  refine ⟨fun e he => init_error_char ca kw e he, ?_⟩
  by_cases ht : (get_template_names_pure s.template_name).truthy = true
  · obtain ⟨v, hv⟩ := hfw
      (if s.template_loader.truthy then s.template_loader
       else fw.default_loader)
      (get_template_names_pure s.template_name)
    exact ⟨_, genericCall_default_truthy fw request object s v ht hv,
      Or.inr rfl⟩
  · exact ⟨_, genericCall_default_not_truthy fw request object s
      (by simpa using ht), Or.inl rfl⟩

theorem own_logic_error_paths_witness :
    ∃ e, GenericView_call (defaultDispatch fw0) .vNone .vNone s0 =
      (.error e, s0) ∧
      (e = .nameError "ImproperlyConfigured" ∨
       e = .nameError "RequestContext") :=
  (own_logic_error_paths (fun _ => none) [] fw0 .vNone .vNone s0
    (fun _ _ => ⟨.vObj "template", rfl⟩)).2
